import Mathlib

/-!
Verification development for the piona_webhook trading bot.

The source (`app.py`) is a Flask webhook receiver that turns alert payloads
into signed orders on the OKX REST API.  Quantities and sizes are modelled as
rationals; the exchange and the process environment are modelled as explicit
oracles (`ExchEnv`, `ProcEnv`), and every outbound network call made by the
trading code is recorded in a `NetCall` trace so that claims about which
requests are (not) issued can be stated.
-/

namespace PionaWebhook

/-! ### JSON-ish payload values (webhook side) -/

/-- A JSON scalar as it occurs in the webhook payloads: a string or a number.
Numeric-string coercion by Python `float` is not modelled; the payloads of
interest carry numeric quantities or omit the field. -/
inductive JVal where
  | s (v : String)
  | n (v : ℚ)
deriving DecidableEq

/-- Dictionary lookup on an association-list payload (first match wins),
modelling `webhook_data.get(key)` / `key in webhook_data`. -/
def lookupJ (data : List (String × JVal)) (k : String) : Option JVal :=
  (data.find? (fun kv => kv.1 = k)).map (fun kv => kv.2)

/-- The dictionary returned by `parse_tradingview_webhook` (app.py 324-332). -/
structure ParsedHook where
  action : String
  symbol : JVal
  quantity : ℚ
  price : Option JVal
  order_type : JVal
  message : JVal
  token : JVal
deriving DecidableEq

/-- Python `float(v)` restricted to numeric JSON values (see `JVal`). -/
def pyFloatNum (v : JVal) : Option ℚ :=
  match v with
  | JVal.n q => some q
  | JVal.s _ => none

/-- Python `str.lower()` (ASCII range), as a structural map over the
characters of the string. -/
def pyLower (s : String) : String := String.mk (s.data.map Char.toLower)

/-- `parse_tradingview_webhook` (app.py 311-336): requires the `action` and
`symbol` fields, lowercases `action` (failing when it is not a string, since
`.lower()` would raise and the handler returns `None`), reads `quantity` with
default `0.001`, and defaults `order_type`, `message` and `token`.  Any raised
exception is caught and mapped to `None`. -/
def parse_tradingview_webhook (data : List (String × JVal)) : Option ParsedHook :=
  match lookupJ data "action", lookupJ data "symbol" with
  | some (JVal.s a), some sym =>
      match pyFloatNum ((lookupJ data "quantity").getD (JVal.n (1/1000))) with
      | some q =>
          some { action := pyLower a
                 symbol := sym
                 quantity := q
                 price := lookupJ data "price"
                 order_type := (lookupJ data "order_type").getD (JVal.s "market")
                 message := (lookupJ data "message").getD (JVal.s "")
                 token := (lookupJ data "token").getD (JVal.s "") }
      | none => none
  | some (JVal.n _), some _ => none
  | _, _ => none

/-- `validate_webhook_token` (app.py 306-309): the expected token is the
`WEBHOOK_TOKEN` environment variable, defaulting to the literal
`"piona0413"`, and the payload token is compared to it with `==`. -/
def validate_webhook_token (envToken : Option String) (token : JVal) : Bool :=
  decide (token = JVal.s (envToken.getD "piona0413"))

/-- How the `/webhook` route dispatches on the parsed action (app.py 382-393). -/
inductive DispatchKind where
  | placeOrderAction
  | closeAction
  | unknownAction
deriving DecidableEq

/-- Action dispatch of the `/webhook` route: `buy`/`sell` place an order,
`close` flattens the position, anything else is answered with HTTP 400. -/
def webhookDispatch (action : String) : DispatchKind :=
  if action = "buy" ∨ action = "sell" then DispatchKind.placeOrderAction
  else if action = "close" then DispatchKind.closeAction
  else DispatchKind.unknownAction

/-! ### Numeric helpers mirroring Python semantics -/

/-- Python 3 `round` to an integer: round half to even (banker rounding),
stated on rationals via the floor and the fractional part. -/
def pyRound (x : ℚ) : ℤ :=
  let f := ⌊x⌋
  let r := x - (f : ℚ)
  if r < 1/2 then f
  else if 1/2 < r then f + 1
  else if f % 2 = 0 then f else f + 1

/-- Python `%` on reals for a positive modulus: `a - b * floor(a / b)`. -/
def qfmod (a b : ℚ) : ℚ := a - b * (⌊a / b⌋ : ℚ)

/-- Round half away from zero, as the spec describes the tie behaviour.
This definition follows the words of the spec, for comparison with the
code-derived `pyRound`. -/
def roundHalfAwayFromZeroSpec (x : ℚ) : ℤ :=
  if 0 ≤ x then ⌊x + 1/2⌋ else ⌈x - 1/2⌉

/-! ### Exchange-side data model -/

/-- Trading rules of an instrument: `lotSz` / `minSz` from the
`/public/instruments` endpoint, as floated by `place_order`. -/
structure Instrument where
  lotSz : ℚ
  minSz : ℚ
deriving DecidableEq

/-- The fallback rules `getInstrumentInfo` returns on any failure:
`minSz = lotSz = 0.001` (app.py 158, 166, 170, 173). -/
def defaultInstrument : Instrument := { lotSz := 1/1000, minSz := 1/1000 }

/-- Possible raw outcomes of the instrument-rules HTTP call. -/
inductive InstrResp where
  | emptyBody
  | jsonMalformed
  | netError
  | payload (code : String) (data : List Instrument)
deriving DecidableEq

/-- Decode of `get_instrument_info` (app.py 143-173): the first data entry on
code `"0"` with nonempty data, the default rules in every other case (empty
body, JSON error, non-success code, transport error). -/
def decodeInstr : InstrResp → Instrument
  | InstrResp.payload code data =>
      if code = "0" ∧ data ≠ [] then data.headD defaultInstrument else defaultInstrument
  | _ => defaultInstrument

/-- The order body built by `place_order` (app.py 272-280): the JSON dict has
exactly the keys `instId`, `tdMode`, `side`, `ordType`, `sz`, plus `px` when a
truthy price is given together with a limit order type. -/
structure OrderRequest where
  instId : String
  tdMode : String
  side : String
  ordType : String
  sz : ℚ
  px : Option ℚ
deriving DecidableEq

/-- The keys of the JSON body serialized for an order request, in insertion
order.  There is no `reduceOnly` key: the code never sets one. -/
def orderKeys (o : OrderRequest) : List String :=
  ["instId", "tdMode", "side", "ordType", "sz"] ++
    (match o.px with
     | some _ => ["px"]
     | none => [])

/-- An exchange JSON response as the code consumes it: a result code and a
message.  Transport failures are mapped to `code = "error"` dicts. -/
structure ExchangeResp where
  code : String
  msg : String
deriving DecidableEq

/-- One entry of the positions response: `instId`, the signed size
`float(pos["pos"])`, the held direction `posSide`, and the optional
`mgnMode` read with `pos.get("mgnMode", default)`. -/
structure PosEntry where
  instId : String
  pos : ℚ
  posSide : String
  mgnMode : Option String
deriving DecidableEq

/-- The positions query response as consumed by `close_position`:
`positions["code"]`, `positions.get("data", [])`, and a message. -/
structure PosQueryResult where
  code : String
  data : List PosEntry
  msg : String
deriving DecidableEq

/-- Raw outcome of the positions HTTP call, before `get_positions` maps
transport errors. -/
inductive PosRawResp where
  | ok (r : PosQueryResult)
  | netError (msg : String)
deriving DecidableEq

/-- One outbound exchange call made by the trading code. -/
inductive NetCall where
  | instrQuery (symbol : String)
  | posQuery (symbol : String)
  | orderPost (body : OrderRequest)
deriving DecidableEq

/-- The exchange as an oracle: what each query returns in this run. -/
structure ExchEnv where
  instrResp : String → InstrResp
  posRaw : String → PosRawResp
  orderResp : OrderRequest → ExchangeResp

/-- The trader fields that order placement consults. -/
structure TraderConfig where
  default_tdmode : String
  default_market : String
deriving DecidableEq

/-! ### Trading operations -/

/-- `get_instrument_info` with its network trace: every call performs the
instruments GET unconditionally — the function keeps no cache. -/
def get_instrument_info (env : ExchEnv) (symbol : String) : Instrument × List NetCall :=
  (decodeInstr (env.instrResp symbol), [NetCall.instrQuery symbol])

/-- Two successive rule lookups for the same symbol within one process,
with their combined query trace. -/
def twoLookups (env : ExchEnv) (symbol : String) : Instrument × List NetCall :=
  let r1 := get_instrument_info env symbol
  let r2 := get_instrument_info env symbol
  (r2.1, r1.2 ++ r2.2)

/-- The quantity validation and rounding step of `place_order`
(app.py 254-265): reject when `amount < min_size`; when `amount` is not an
exact multiple of `lot_size`, replace it by `round(amount / lot_size) * lot_size`. -/
def normalizeAmount (lotSz minSz amount : ℚ) : Option ℚ :=
  if amount < minSz then none
  else if qfmod amount lotSz ≠ 0 then some ((pyRound (amount / lotSz) : ℚ) * lotSz)
  else some amount

/-- `place_order` (app.py 244-304): resolve the instrument rules (issuing the
instruments query), validate and round the amount, resolve the trade mode
(`cash` for spot, the default otherwise, unless a mode was passed), build the
order body — attaching `px` only for a truthy price on a limit order — and
POST it.  Validation failure returns a `code = "error"` dict without any POST. -/
def place_order (cfg : TraderConfig) (env : ExchEnv) (symbol side : String) (amount : ℚ)
    (price : Option ℚ) (order_type : String) (td_mode : Option String) :
    ExchangeResp × List NetCall :=
  let inst := decodeInstr (env.instrResp symbol)
  match normalizeAmount inst.lotSz inst.minSz amount with
  | none => ({ code := "error", msg := "below minimum size" }, [NetCall.instrQuery symbol])
  | some amt =>
      let td := td_mode.getD (if cfg.default_market = "spot" then "cash" else cfg.default_tdmode)
      let px :=
        match price with
        | some p => if p ≠ 0 ∧ order_type = "limit" then some p else none
        | none => none
      let body : OrderRequest :=
        { instId := symbol, tdMode := td, side := side, ordType := order_type,
          sz := amt, px := px }
      (env.orderResp body, [NetCall.instrQuery symbol, NetCall.orderPost body])

/-- `get_positions` (app.py 193-212): return the exchange response, mapping a
transport failure to a `code = "error"` dict. -/
def get_positions (env : ExchEnv) (symbol : String) : PosQueryResult :=
  match env.posRaw symbol with
  | PosRawResp.ok r => r
  | PosRawResp.netError m => { code := "error", data := [], msg := m }

/-- The loop body of `close_position` (app.py 222-236): for each entry of the
position list matching the symbol with nonzero size, place a market order on
the opposing side for the absolute held size, passing the `mgnMode` of the
entry itself (falling back to the trader default); collect every result. -/
def closeLoop (cfg : TraderConfig) (env : ExchEnv) (symbol : String) :
    List PosEntry → List ExchangeResp × List NetCall
  | [] => ([], [])
  | p :: rest =>
      if p.instId = symbol ∧ p.pos ≠ 0 then
        let pr := place_order cfg env symbol (if p.posSide = "long" then "sell" else "buy")
          |p.pos| none "market" (some (p.mgnMode.getD cfg.default_tdmode))
        let tail := closeLoop cfg env symbol rest
        (pr.1 :: tail.1, pr.2 ++ tail.2)
      else closeLoop cfg env symbol rest

/-- The value `close_position` returns: the failed positions query verbatim,
the `"nothing to close"` success dict, or the aggregated close results. -/
inductive CloseResult where
  | queryFailed (r : PosQueryResult)
  | noPosition
  | closed (rs : List ExchangeResp)
deriving DecidableEq

/-- `close_position` (app.py 214-242): query the positions (one posQuery call);
on a non-`"0"` code return the query result unchanged; run the close loop;
when it closed nothing return the explicit no-position success, else the
aggregated order results.  The `side` argument is accepted and ignored,
exactly as in the source. -/
def close_position (cfg : TraderConfig) (env : ExchEnv) (symbol side : String) :
    CloseResult × List NetCall :=
  let positions := get_positions env symbol
  if positions.code ≠ "0" then (CloseResult.queryFailed positions, [NetCall.posQuery symbol])
  else
    let lp := closeLoop cfg env symbol positions.data
    if lp.1 = [] then (CloseResult.noPosition, NetCall.posQuery symbol :: lp.2)
    else (CloseResult.closed lp.1, NetCall.posQuery symbol :: lp.2)

/-- The order POSTs contained in a network trace. -/
def orderPosts (trace : List NetCall) : List OrderRequest :=
  trace.filterMap (fun c =>
    match c with
    | NetCall.orderPost b => some b
    | _ => none)

/-! ### Construction and request signing -/

/-- The process environment variables read by `OKXTrader.__init__`. -/
structure ProcEnv where
  okx_api_key : Option String
  okx_api_secret : Option String
  okx_api_passphrase : Option String
  okx_base_url : Option String
  okx_simulated : Option String
  default_tdmode_env : Option String
  default_market_env : Option String
deriving DecidableEq

/-- The fields of a constructed `OKXTrader` (app.py 113-123). -/
structure OKXTraderState where
  api_key : Option String
  secret_key : Option String
  passphrase : Option String
  base_url : String
  simulated : String
  default_tdmode : String
  default_market : String
deriving DecidableEq

/-- `OKXTrader.__init__` (app.py 113-123): read each environment variable,
apply the documented defaults, and return the state.  There is no credential
check of any kind; construction is total. -/
def OKXTrader_init (e : ProcEnv) : OKXTraderState :=
  { api_key := e.okx_api_key
    secret_key := e.okx_api_secret
    passphrase := e.okx_api_passphrase
    base_url := e.okx_base_url.getD "https://www.okx.com"
    simulated := e.okx_simulated.getD "1"
    default_tdmode := e.default_tdmode_env.getD "isolated"
    default_market := e.default_market_env.getD "swap" }

/-- The header set assembled by `sign_request`.  The HMAC-SHA256 digest itself
is abstracted: the header carries the exact message the digest is computed
over, which is all the claims here depend on. -/
structure SignedHeaders where
  key : Option String
  timestamp : String
  passphrase : Option String
  simulated : String
  signedMessage : String
deriving DecidableEq

/-- `sign_request` (app.py 128-141): concatenate `timestamp + method + path +
body` and HMAC it with `self.secret_key`.  When the secret is absent,
`self.secret_key.encode()` raises (`None` has no `encode`), so signing fails —
this is the first place a missing secret surfaces. -/
def sign_request (t : OKXTraderState) (timestamp method path body : String) :
    Option SignedHeaders :=
  match t.secret_key with
  | none => none
  | some _ =>
      some { key := t.api_key
             timestamp := timestamp
             passphrase := t.passphrase
             simulated := t.simulated
             signedMessage := timestamp ++ method ++ path ++ body }

/-! ### Helper lemmas -/

/-- `pyRound` returns the floor or the floor plus one. -/
lemma pyRound_cases (x : ℚ) : pyRound x = ⌊x⌋ ∨ pyRound x = ⌊x⌋ + 1 := by
  simp only [pyRound]
  split_ifs <;> simp

/-- The floor bounds `pyRound` from below. -/
lemma floor_le_pyRound (x : ℚ) : ⌊x⌋ ≤ pyRound x := by
  rcases pyRound_cases x with h | h <;> omega

/-- An integer lower bound on the argument bounds `pyRound`. -/
lemma pyRound_int_le (k : ℤ) (x : ℚ) (h : (k : ℚ) ≤ x) : k ≤ pyRound x :=
  le_trans (Int.le_floor.mpr h) (floor_le_pyRound x)

/-- An integer multiple of the modulus has remainder zero under `qfmod`. -/
lemma qfmod_int_mul (m : ℤ) (b : ℚ) (hb : b ≠ 0) : qfmod ((m : ℚ) * b) b = 0 := by
  simp only [qfmod]
  rw [mul_div_cancel_right₀ _ hb, Int.floor_intCast]
  ring

/-- `pyRound` lands within half a unit of its argument. -/
lemma pyRound_nearest (x : ℚ) : |x - (pyRound x : ℚ)| ≤ 1/2 := by
  have h0 : ((⌊x⌋ : ℤ) : ℚ) ≤ x := Int.floor_le x
  have h1 : x < ((⌊x⌋ : ℤ) : ℚ) + 1 := Int.lt_floor_add_one x
  simp only [pyRound]
  split_ifs with hlt hgt hev
  · rw [abs_of_nonneg (by linarith)]
    linarith
  · push_cast
    rw [abs_of_nonpos (by linarith)]
    linarith
  · have heq : x - ((⌊x⌋ : ℤ) : ℚ) = 1/2 := le_antisymm (not_lt.mp hgt) (not_lt.mp hlt)
    rw [abs_of_nonneg (by linarith)]
    linarith
  · have heq : x - ((⌊x⌋ : ℤ) : ℚ) = 1/2 := le_antisymm (not_lt.mp hgt) (not_lt.mp hlt)
    push_cast
    rw [abs_of_nonpos (by linarith)]
    linarith

/-- On an exact tie, `pyRound` picks the even of the two neighbours. -/
lemma pyRound_tie_even (x : ℚ) (h : x - ((⌊x⌋ : ℤ) : ℚ) = 1/2) : pyRound x % 2 = 0 := by
  simp only [pyRound, h]
  norm_num
  split_ifs with hev <;> omega

/-- `place_order` on a market order whose amount already satisfies the
instrument rules: the exact amount is posted with the given trade mode. -/
lemma place_order_exact (cfg : TraderConfig) (env : ExchEnv) (symbol side : String)
    (amt : ℚ) (tdm : String)
    (hmin : (decodeInstr (env.instrResp symbol)).minSz ≤ amt)
    (hlot : qfmod amt (decodeInstr (env.instrResp symbol)).lotSz = 0) :
    place_order cfg env symbol side amt none "market" (some tdm) =
      (env.orderResp
        { instId := symbol, tdMode := tdm, side := side, ordType := "market",
          sz := amt, px := none },
       [NetCall.instrQuery symbol,
        NetCall.orderPost
          { instId := symbol, tdMode := tdm, side := side, ordType := "market",
            sz := amt, px := none }]) := by
  have h1 : ¬ amt < (decodeInstr (env.instrResp symbol)).minSz := not_lt.mpr hmin
  simp [place_order, normalizeAmount, h1, hlot]

/-- The close loop over a list of entries that all have size zero places
nothing and issues no call. -/
lemma closeLoop_zero (cfg : TraderConfig) (env : ExchEnv) (symbol : String) :
    ∀ l : List PosEntry, (∀ p ∈ l, p.pos = 0) → closeLoop cfg env symbol l = ([], []) := by
  intro l
  induction l with
  | nil => intro _; rfl
  | cons p rest ih =>
      intro h
      have hp : p.pos = 0 := h p (List.mem_cons_self p rest)
      have hr := ih (fun q hq => h q (List.mem_cons_of_mem p hq))
      simp [closeLoop, hp, hr]

/-! ### Claims -/

/-- C1 counterexample: with lotSize 1 and minSize 1.4 (hypotheses of the claim
hold: lotSize positive, minSize at least lotSize), the quantity 1.4 passes the
minimum check, is rounded down to 1, and the returned quantity is below
minSize — refuting that every non-error result is at least minSize. -/
theorem C1_counterexample :
    (0:ℚ) < 1 ∧ (1:ℚ) ≤ 7/5 ∧
    normalizeAmount 1 (7/5) (7/5) = some 1 ∧ ¬ ((7:ℚ)/5 ≤ 1) := by
  refine ⟨by norm_num, by norm_num, ?_, by norm_num⟩
  norm_num [normalizeAmount, qfmod, pyRound]

/-- C1 (amended): when additionally minSize is an integer multiple of lotSize,
the normalization step inside place_order either rejects exactly the
quantities below minSize or yields an exact multiple of lotSize that is at
least minSize. -/
theorem C1_normalize_multiple_and_min (q lotSz minSz : ℚ)
    (hlot : 0 < lotSz) (hge : lotSz ≤ minSz)
    (hmul : ∃ k : ℤ, minSz = (k : ℚ) * lotSz) :
    (q < minSz → normalizeAmount lotSz minSz q = none) ∧
    (∀ r, normalizeAmount lotSz minSz q = some r → qfmod r lotSz = 0 ∧ minSz ≤ r) := by
  obtain ⟨k, hk⟩ := hmul
  constructor
  · intro h
    simp [normalizeAmount, h]
  · intro r hr
    by_cases hlt : q < minSz
    · simp [normalizeAmount, hlt] at hr
    · by_cases hmod : qfmod q lotSz ≠ 0
      · have hr2 : ((pyRound (q / lotSz) : ℤ) : ℚ) * lotSz = r := by
          simpa [normalizeAmount, hlt, hmod] using hr
        rw [← hr2]
        constructor
        · exact qfmod_int_mul _ _ (ne_of_gt hlot)
        · have hq : minSz ≤ q := not_lt.mp hlt
          have hkq : (k : ℚ) * lotSz ≤ q := by rw [← hk]; exact hq
          have hdiv : (k : ℚ) ≤ q / lotSz := (le_div_iff₀ hlot).mpr hkq
          have hcast : (k : ℚ) ≤ ((pyRound (q / lotSz) : ℤ) : ℚ) := by
            exact_mod_cast pyRound_int_le k _ hdiv
          calc minSz = (k : ℚ) * lotSz := hk
            _ ≤ ((pyRound (q / lotSz) : ℤ) : ℚ) * lotSz :=
                mul_le_mul_of_nonneg_right hcast (le_of_lt hlot)
      · push_neg at hmod
        have hr2 : q = r := by simpa [normalizeAmount, hlt, hmod] using hr
        rw [← hr2]
        exact ⟨hmod, not_lt.mp hlt⟩

/-- C1 witness: the amended theorem applied at quantity 2, lotSize 1,
minSize 1. -/
theorem C1_normalize_multiple_and_min_witness :
    ((0:ℚ) < 1 ∧ (1:ℚ) ≤ 1) ∧ (qfmod 2 1 = 0 ∧ (1:ℚ) ≤ 2) :=
  ⟨⟨by norm_num, by norm_num⟩,
   (C1_normalize_multiple_and_min 2 1 1 (by norm_num) (by norm_num)
      ⟨1, by norm_num⟩).2 2 (by norm_num [normalizeAmount, qfmod])⟩

/-- C3 counterexample: at quantity 2.5 with lotSize 1 the code computes
round(2.5) = 2 (Python rounds half to even), while rounding half away from
zero as claimed would give 3. -/
theorem C3_counterexample :
    normalizeAmount 1 1 (5/2) = some 2 ∧
    (roundHalfAwayFromZeroSpec ((5:ℚ)/2 / 1) : ℚ) * 1 = 3 ∧ ¬ ((2:ℚ) = 3) := by
  refine ⟨?_, ?_, by norm_num⟩
  · norm_num [normalizeAmount, qfmod, pyRound]
  · norm_num [roundHalfAwayFromZeroSpec]

/-- C3 (amended): a quantity that passes the minimum check and is not an
exact multiple of lotSize is rounded to round(q / lotSize) * lotSize and the
order proceeds; the rounding picks a multiple within half a lot of the
request, and on an exact tie it picks the even multiple (Python round half
to even), not the one away from zero. -/
theorem C3_round_half_even (q lotSz minSz : ℚ)
    (hmin : ¬ q < minSz) (hmod : qfmod q lotSz ≠ 0) :
    normalizeAmount lotSz minSz q = some ((pyRound (q / lotSz) : ℚ) * lotSz) ∧
    |q / lotSz - (pyRound (q / lotSz) : ℚ)| ≤ 1/2 ∧
    (q / lotSz - ((⌊q / lotSz⌋ : ℤ) : ℚ) = 1/2 → pyRound (q / lotSz) % 2 = 0) := by
  refine ⟨?_, pyRound_nearest _, pyRound_tie_even _⟩
  simp [normalizeAmount, hmin, hmod]

/-- C3 witness: the amended theorem applied at quantity 2.5, lotSize 1,
minSize 1. -/
theorem C3_round_half_even_witness :
    (¬ ((5:ℚ)/2 < 1) ∧ qfmod ((5:ℚ)/2) 1 ≠ 0) ∧
    (normalizeAmount 1 1 (5/2) = some ((pyRound ((5:ℚ)/2 / 1) : ℚ) * 1) ∧
     |(5:ℚ)/2 / 1 - (pyRound ((5:ℚ)/2 / 1) : ℚ)| ≤ 1/2 ∧
     ((5:ℚ)/2 / 1 - ((⌊(5:ℚ)/2 / 1⌋ : ℤ) : ℚ) = 1/2 → pyRound ((5:ℚ)/2 / 1) % 2 = 0)) :=
  ⟨⟨by norm_num, by norm_num [qfmod]⟩,
   C3_round_half_even (5/2) 1 1 (by norm_num) (by norm_num [qfmod])⟩

/-! ### Concrete runs used by counterexamples and witnesses -/

/-- A single long position of size 1 in cross margin. -/
def entryLong1 : PosEntry :=
  { instId := "BTC-USDT-SWAP", pos := 1, posSide := "long", mgnMode := some "cross" }

/-- An exchange run holding exactly `entryLong1`, with rules
lotSize = minSize = 1, every order accepted. -/
def envLong1 : ExchEnv :=
  { instrResp := fun _ => InstrResp.payload "0" [{ lotSz := 1, minSz := 1 }]
    posRaw := fun _ => PosRawResp.ok { code := "0", data := [entryLong1], msg := "" }
    orderResp := fun _ => { code := "0", msg := "" } }

/-- The trader configuration from the documented environment defaults. -/
def cfg0 : TraderConfig := { default_tdmode := "isolated", default_market := "swap" }

/-- C2 counterexample: closing the single long position submits exactly one
order, and its serialized body has keys instId, tdMode, side, ordType, sz
only — it does not carry reduceOnly = true (no reduceOnly field exists). -/
theorem C2_counterexample :
    orderPosts (close_position cfg0 envLong1 "BTC-USDT-SWAP" "both").2 =
      [{ instId := "BTC-USDT-SWAP", tdMode := "cross", side := "sell", ordType := "market",
         sz := 1, px := none }] ∧
    "reduceOnly" ∉ orderKeys
      { instId := "BTC-USDT-SWAP", tdMode := "cross", side := "sell", ordType := "market",
        sz := (1:ℚ), px := none } := by
  constructor
  · norm_num [close_position, get_positions, envLong1, cfg0, entryLong1, closeLoop,
      place_order, normalizeAmount, qfmod, orderPosts, decodeInstr, defaultInstrument,
      List.filterMap_cons, List.filterMap_nil]
  · decide

/-- C2 (amended): for an open entry of the queried symbol with nonzero size
that satisfies the instrument rules, close_position submits exactly one order
with the opposing side (long closes with sell, anything else with buy), of
type market, for exactly the held size, in the margin mode of the entry
itself — and the order body carries no reduce-only flag at all. -/
theorem C2_close_order_shape (cfg : TraderConfig) (env : ExchEnv)
    (symbol side0 m : String) (e : PosEntry) (r : PosQueryResult)
    (hraw : env.posRaw symbol = PosRawResp.ok r) (hcode : r.code = "0")
    (hdata : r.data = [e]) (hid : e.instId = symbol) (hnz : e.pos ≠ 0)
    (hm : e.mgnMode = some m)
    (hmin : (decodeInstr (env.instrResp symbol)).minSz ≤ |e.pos|)
    (hlot : qfmod |e.pos| (decodeInstr (env.instrResp symbol)).lotSz = 0) :
    orderPosts (close_position cfg env symbol side0).2 =
      [{ instId := symbol, tdMode := m,
         side := if e.posSide = "long" then "sell" else "buy",
         ordType := "market", sz := |e.pos|, px := none }] ∧
    "reduceOnly" ∉ orderKeys
      { instId := symbol, tdMode := m,
        side := if e.posSide = "long" then "sell" else "buy",
        ordType := "market", sz := |e.pos|, px := none } := by
  have hgp : get_positions env symbol = r := by simp [get_positions, hraw]
  constructor
  · simp only [close_position, hgp, hcode, hdata, closeLoop, hid, hnz, hm,
      Option.getD_some]
    rw [place_order_exact cfg env symbol _ |e.pos| m hmin hlot]
    simp [orderPosts, hnz, List.filterMap_cons, List.filterMap_nil]
  · simp [orderKeys]

/-- C2 witness: the amended theorem applied to the run with the single long
cross-margin position of size 1. -/
theorem C2_close_order_shape_witness :
    (envLong1.posRaw "BTC-USDT-SWAP" =
        PosRawResp.ok { code := "0", data := [entryLong1], msg := "" } ∧
      entryLong1.pos ≠ 0 ∧
      (decodeInstr (envLong1.instrResp "BTC-USDT-SWAP")).minSz ≤ |entryLong1.pos|) ∧
    (orderPosts (close_position cfg0 envLong1 "BTC-USDT-SWAP" "both").2 =
      [{ instId := "BTC-USDT-SWAP", tdMode := "cross",
         side := if entryLong1.posSide = "long" then "sell" else "buy",
         ordType := "market", sz := |entryLong1.pos|, px := none }] ∧
     "reduceOnly" ∉ orderKeys
      { instId := "BTC-USDT-SWAP", tdMode := "cross",
        side := if entryLong1.posSide = "long" then "sell" else "buy",
        ordType := "market", sz := |entryLong1.pos|, px := none }) :=
  ⟨⟨rfl, by norm_num [entryLong1], by norm_num [entryLong1, envLong1, decodeInstr]⟩,
   C2_close_order_shape cfg0 envLong1 "BTC-USDT-SWAP" "both" "cross" entryLong1
     { code := "0", data := [entryLong1], msg := "" } rfl rfl rfl rfl
     (by norm_num [entryLong1]) rfl
     (by norm_num [entryLong1, envLong1, decodeInstr])
     (by norm_num [entryLong1, envLong1, decodeInstr, qfmod])⟩

/-- C4: when the positions query succeeds and every returned entry has size
zero (in particular when the list is empty), close_position returns the
explicit no-position result and its only network call is the positions query:
no order is placed and no order POST is issued. -/
theorem C4_no_position_no_order (cfg : TraderConfig) (env : ExchEnv)
    (symbol side0 : String) (r : PosQueryResult)
    (hraw : env.posRaw symbol = PosRawResp.ok r) (hcode : r.code = "0")
    (hzero : ∀ p ∈ r.data, p.pos = 0) :
    close_position cfg env symbol side0 =
      (CloseResult.noPosition, [NetCall.posQuery symbol]) := by
  have hgp : get_positions env symbol = r := by simp [get_positions, hraw]
  have hcl := closeLoop_zero cfg env symbol r.data hzero
  simp [close_position, hgp, hcode, hcl]

/-- An exchange run whose position list holds a single entry of size zero. -/
def envFlat : ExchEnv :=
  { instrResp := fun _ => InstrResp.payload "0" [{ lotSz := 1, minSz := 1 }]
    posRaw := fun _ => PosRawResp.ok
      { code := "0",
        data := [{ instId := "BTC-USDT-SWAP", pos := 0, posSide := "long", mgnMode := none }],
        msg := "" }
    orderResp := fun _ => { code := "0", msg := "" } }

/-- C4 witness: the theorem applied to the run with one zero-size entry. -/
theorem C4_no_position_no_order_witness :
    (envFlat.posRaw "BTC-USDT-SWAP" = PosRawResp.ok
      { code := "0",
        data := [{ instId := "BTC-USDT-SWAP", pos := 0, posSide := "long", mgnMode := none }],
        msg := "" }) ∧
    close_position cfg0 envFlat "BTC-USDT-SWAP" "both" =
      (CloseResult.noPosition, [NetCall.posQuery "BTC-USDT-SWAP"]) :=
  ⟨rfl,
   C4_no_position_no_order cfg0 envFlat "BTC-USDT-SWAP" "both"
     { code := "0",
       data := [{ instId := "BTC-USDT-SWAP", pos := 0, posSide := "long", mgnMode := none }],
       msg := "" }
     rfl rfl (by intro p hp; simp at hp; rw [hp])⟩

/-- C8: for a hedge-mode symbol holding one long and one short entry, both
nonzero and both within the instrument rules, close_position issues exactly
two order POSTs — a sell sized to the long entry and a buy sized to the short
entry, each a market order — and returns both individual exchange results
aggregated, for every exchange behaviour (in particular when the first close
is answered with a failure, the second is still attempted). -/
theorem C8_hedge_two_orders (cfg : TraderConfig) (env : ExchEnv)
    (symbol side0 : String) (e1 e2 : PosEntry) (r : PosQueryResult)
    (hraw : env.posRaw symbol = PosRawResp.ok r) (hcode : r.code = "0")
    (hdata : r.data = [e1, e2])
    (h1id : e1.instId = symbol) (h2id : e2.instId = symbol)
    (h1s : e1.posSide = "long") (h2s : e2.posSide = "short")
    (h1nz : e1.pos ≠ 0) (h2nz : e2.pos ≠ 0)
    (h1min : (decodeInstr (env.instrResp symbol)).minSz ≤ |e1.pos|)
    (h2min : (decodeInstr (env.instrResp symbol)).minSz ≤ |e2.pos|)
    (h1lot : qfmod |e1.pos| (decodeInstr (env.instrResp symbol)).lotSz = 0)
    (h2lot : qfmod |e2.pos| (decodeInstr (env.instrResp symbol)).lotSz = 0) :
    ∃ o1 o2 : OrderRequest,
      orderPosts (close_position cfg env symbol side0).2 = [o1, o2] ∧
      o1.side = "sell" ∧ o2.side = "buy" ∧
      o1.sz = |e1.pos| ∧ o2.sz = |e2.pos| ∧
      o1.ordType = "market" ∧ o2.ordType = "market" ∧
      (close_position cfg env symbol side0).1 =
        CloseResult.closed [env.orderResp o1, env.orderResp o2] := by
  have hgp : get_positions env symbol = r := by simp [get_positions, hraw]
  refine ⟨{ instId := symbol, tdMode := e1.mgnMode.getD cfg.default_tdmode,
            side := "sell", ordType := "market", sz := |e1.pos|, px := none },
          { instId := symbol, tdMode := e2.mgnMode.getD cfg.default_tdmode,
            side := "buy", ordType := "market", sz := |e2.pos|, px := none },
          ?_, rfl, rfl, rfl, rfl, rfl, rfl, ?_⟩ <;>
  · simp only [close_position, hgp, hcode, hdata, closeLoop, h1id, h2id, h1s, h2s,
      h1nz, h2nz]
    rw [place_order_exact cfg env symbol _ |e1.pos| _ h1min h1lot,
      place_order_exact cfg env symbol _ |e2.pos| _ h2min h2lot]
    simp [orderPosts, h1nz, h2nz, List.filterMap_cons, List.filterMap_nil]

/-- The long entry of the hedge-mode witness run: size 2. -/
def hedgeLong : PosEntry :=
  { instId := "ETH-USDT-SWAP", pos := 2, posSide := "long", mgnMode := some "cross" }

/-- The short entry of the hedge-mode witness run: raw size -1. -/
def hedgeShort : PosEntry :=
  { instId := "ETH-USDT-SWAP", pos := -1, posSide := "short", mgnMode := some "isolated" }

/-- A hedge-mode exchange run whose sell orders are rejected by the exchange,
so that the first close fails and the second must still be attempted. -/
def envHedge : ExchEnv :=
  { instrResp := fun _ => InstrResp.payload "0" [{ lotSz := 1, minSz := 1 }]
    posRaw := fun _ => PosRawResp.ok { code := "0", data := [hedgeLong, hedgeShort], msg := "" }
    orderResp := fun o => if o.side = "sell" then { code := "1", msg := "rejected" }
      else { code := "0", msg := "" } }

/-- C8 witness: the theorem applied to the hedge-mode run in which the first
(sell) close is rejected by the exchange. -/
theorem C8_hedge_two_orders_witness :
    (envHedge.posRaw "ETH-USDT-SWAP" =
        PosRawResp.ok { code := "0", data := [hedgeLong, hedgeShort], msg := "" } ∧
      hedgeLong.pos ≠ 0 ∧ hedgeShort.pos ≠ 0) ∧
    (∃ o1 o2 : OrderRequest,
      orderPosts (close_position cfg0 envHedge "ETH-USDT-SWAP" "both").2 = [o1, o2] ∧
      o1.side = "sell" ∧ o2.side = "buy" ∧
      o1.sz = |hedgeLong.pos| ∧ o2.sz = |hedgeShort.pos| ∧
      o1.ordType = "market" ∧ o2.ordType = "market" ∧
      (close_position cfg0 envHedge "ETH-USDT-SWAP" "both").1 =
        CloseResult.closed [envHedge.orderResp o1, envHedge.orderResp o2]) :=
  ⟨⟨rfl, by norm_num [hedgeLong], by norm_num [hedgeShort]⟩,
   C8_hedge_two_orders cfg0 envHedge "ETH-USDT-SWAP" "both" hedgeLong hedgeShort
     { code := "0", data := [hedgeLong, hedgeShort], msg := "" }
     rfl rfl rfl rfl rfl rfl rfl
     (by norm_num [hedgeLong]) (by norm_num [hedgeShort])
     (by norm_num [hedgeLong, envHedge, decodeInstr])
     (by norm_num [hedgeShort, envHedge, decodeInstr])
     (by norm_num [hedgeLong, envHedge, decodeInstr, qfmod])
     (by norm_num [hedgeShort, envHedge, decodeInstr, qfmod])⟩

/-- C10: whenever the positions query underlying close_position reports a
non-success code — in particular a transport failure, which get_positions
maps to the code "error" — close_position returns that query result
unchanged, its only network call is the positions query, and no order is
posted. -/
theorem C10_query_failure_no_orders (cfg : TraderConfig) (env : ExchEnv)
    (symbol side0 : String)
    (h : (get_positions env symbol).code ≠ "0") :
    close_position cfg env symbol side0 =
      (CloseResult.queryFailed (get_positions env symbol), [NetCall.posQuery symbol]) ∧
    (∀ m, env.posRaw symbol = PosRawResp.netError m →
      (get_positions env symbol).code = "error") := by
  constructor
  · simp [close_position, h]
  · intro m hm
    simp [get_positions, hm]

/-- An exchange run whose positions query fails at the transport layer. -/
def envPosDown : ExchEnv :=
  { instrResp := fun _ => InstrResp.payload "0" [{ lotSz := 1, minSz := 1 }]
    posRaw := fun _ => PosRawResp.netError "connection refused"
    orderResp := fun _ => { code := "0", msg := "" } }

/-- C10 witness: the theorem applied to the run whose positions query dies on
the transport. -/
theorem C10_query_failure_no_orders_witness :
    ((get_positions envPosDown "BTC-USDT-SWAP").code ≠ "0") ∧
    (close_position cfg0 envPosDown "BTC-USDT-SWAP" "both" =
      (CloseResult.queryFailed (get_positions envPosDown "BTC-USDT-SWAP"),
       [NetCall.posQuery "BTC-USDT-SWAP"]) ∧
     (∀ m, envPosDown.posRaw "BTC-USDT-SWAP" = PosRawResp.netError m →
       (get_positions envPosDown "BTC-USDT-SWAP").code = "error")) :=
  ⟨by decide,
   C10_query_failure_no_orders cfg0 envPosDown "BTC-USDT-SWAP" "both" (by decide)⟩

/-- The action/side/qty payload the claim says must be accepted. -/
def actionSideQtyPayload : List (String × JVal) :=
  [("action", JVal.s "entry"), ("side", JVal.s "short"),
   ("qty", JVal.n (1/50)), ("symbol", JVal.s "ETHUSDT")]

/-- C5 counterexample: the parser keeps the raw action "entry" and, since the
payload has no "quantity" key, falls back to the default 0.001 — the "side"
and "qty" keys are ignored, so no Sell action with quantity 0.02 is produced —
and the webhook route then rejects the action "entry" as unknown. -/
theorem C5_counterexample :
    (parse_tradingview_webhook actionSideQtyPayload).map (fun p => (p.action, p.quantity)) =
      some ("entry", 1/1000) ∧
    ¬ ((1:ℚ)/1000 = 1/50) ∧
    webhookDispatch "entry" = DispatchKind.unknownAction := by
  refine ⟨rfl, by norm_num, by decide⟩

/-- C5 (amended): the action/side/qty payload is parsed (action and symbol are
present) into action = "entry", symbol = "ETHUSDT" and the default quantity
0.001, with side and qty dropped, and the webhook dispatcher answers the
unknown action "entry" with the error branch (HTTP 400) instead of placing a
Sell order. -/
theorem C5_entry_payload_parsed_unknown :
    parse_tradingview_webhook actionSideQtyPayload = some
      { action := "entry", symbol := JVal.s "ETHUSDT", quantity := 1/1000, price := none,
        order_type := JVal.s "market", message := JVal.s "", token := JVal.s "" } ∧
    webhookDispatch "entry" = DispatchKind.unknownAction :=
  ⟨rfl, by decide⟩

/-- An exchange run answering the instrument-rules query successfully. -/
def envRules : ExchEnv :=
  { instrResp := fun _ => InstrResp.payload "0" [{ lotSz := 1/100, minSz := 1/100 }]
    posRaw := fun _ => PosRawResp.ok { code := "0", data := [], msg := "" }
    orderResp := fun _ => { code := "0", msg := "" } }

/-- C6 counterexample: in a run where the first rules lookup succeeds, two
successive lookups for the same symbol still issue two exchange queries — the
second is not served from any cache, refuting that the query is issued only
on first access. -/
theorem C6_counterexample :
    (get_instrument_info envRules "BTC-USDT-SWAP").1 = { lotSz := 1/100, minSz := 1/100 } ∧
    (twoLookups envRules "BTC-USDT-SWAP").2 =
      [NetCall.instrQuery "BTC-USDT-SWAP", NetCall.instrQuery "BTC-USDT-SWAP"] ∧
    (twoLookups envRules "BTC-USDT-SWAP").2.length ≠ 1 :=
  ⟨rfl, rfl, by decide⟩

/-- C6 (amended): the rules lookup keeps no cache: every call of
get_instrument_info issues the instruments query, and two successive lookups
for one symbol issue two queries regardless of the response. -/
theorem C6_every_lookup_queries (env : ExchEnv) (s : String) :
    (get_instrument_info env s).2 = [NetCall.instrQuery s] ∧
    (twoLookups env s).2 = [NetCall.instrQuery s, NetCall.instrQuery s] :=
  ⟨rfl, rfl⟩

/-- A process environment with no OKX secret key configured. -/
def envNoSecret : ProcEnv :=
  { okx_api_key := some "key", okx_api_secret := none, okx_api_passphrase := some "pass",
    okx_base_url := none, okx_simulated := none, default_tdmode_env := none,
    default_market_env := none }

/-- C7 counterexample: with the secret key absent, construction of the trading
client still succeeds and yields a fully populated state — no ConfigError
aborts initialization — and the missing credential surfaces only when a
request is signed, which fails. -/
theorem C7_counterexample :
    OKXTrader_init envNoSecret =
      { api_key := some "key", secret_key := none, passphrase := some "pass",
        base_url := "https://www.okx.com", simulated := "1",
        default_tdmode := "isolated", default_market := "swap" } ∧
    sign_request (OKXTrader_init envNoSecret) "ts" "GET" "/api/v5/account/positions" "" =
      none :=
  ⟨rfl, rfl⟩

/-- C7 (amended): construction never checks the credentials — for every
process environment with the secret key unset, the client is constructed with
secret_key = none and every later signing attempt fails; the absence of
credentials surfaces per request, not at startup. -/
theorem C7_init_total_sign_fails (e : ProcEnv) (h : e.okx_api_secret = none)
    (ts method path body : String) :
    (OKXTrader_init e).secret_key = none ∧
    sign_request (OKXTrader_init e) ts method path body = none := by
  constructor
  · simp [OKXTrader_init, h]
  · simp [sign_request, OKXTrader_init, h]

/-- C7 witness: the amended theorem applied to the environment with no
secret. -/
theorem C7_init_total_sign_fails_witness :
    (envNoSecret.okx_api_secret = none) ∧
    ((OKXTrader_init envNoSecret).secret_key = none ∧
     sign_request (OKXTrader_init envNoSecret) "ts" "GET" "/p" "" = none) :=
  ⟨rfl, C7_init_total_sign_fails envNoSecret rfl "ts" "GET" "/p" ""⟩

/-- C9: with WEBHOOK_TOKEN unset, validation accepts exactly the literal
"piona0413"; a payload without a token field is parsed with the empty string
as its token, and the empty token is accepted only when the configured secret
is itself empty (otherwise the request is answered with HTTP 403). -/
theorem C9_token_validation (data : List (String × JVal)) (p : ParsedHook)
    (hnot : lookupJ data "token" = none)
    (hp : parse_tradingview_webhook data = some p) :
    (∀ t : JVal, validate_webhook_token none t = true ↔ t = JVal.s "piona0413") ∧
    p.token = JVal.s "" ∧
    (∀ s : String, validate_webhook_token (some s) (JVal.s "") = true ↔ s = "") := by
  refine ⟨?_, ?_, ?_⟩
  · intro t
    simp [validate_webhook_token]
  · unfold parse_tradingview_webhook at hp
    split at hp <;> simp_all
    split at hp <;> simp_all
    rw [← hp]
  · intro s
    simp [validate_webhook_token, eq_comm]

/-- A webhook payload carrying no token field. -/
def noTokenPayload : List (String × JVal) :=
  [("action", JVal.s "buy"), ("symbol", JVal.s "BTC-USDT-SWAP")]

/-- The parse of `noTokenPayload`. -/
def noTokenParsed : ParsedHook :=
  { action := "buy", symbol := JVal.s "BTC-USDT-SWAP", quantity := 1/1000, price := none,
    order_type := JVal.s "market", message := JVal.s "", token := JVal.s "" }

/-- C9 witness: the theorem applied to the payload without a token field. -/
theorem C9_token_validation_witness :
    (lookupJ noTokenPayload "token" = none ∧
      parse_tradingview_webhook noTokenPayload = some noTokenParsed) ∧
    (validate_webhook_token none (JVal.s "piona0413") = true ∧
      noTokenParsed.token = JVal.s "" ∧
      validate_webhook_token (some "") (JVal.s "") = true) :=
  ⟨⟨rfl, rfl⟩,
   ((C9_token_validation noTokenPayload noTokenParsed rfl rfl).1
      (JVal.s "piona0413")).mpr rfl,
   (C9_token_validation noTokenPayload noTokenParsed rfl rfl).2.1,
   ((C9_token_validation noTokenPayload noTokenParsed rfl rfl).2.2 "").mpr rfl⟩

end PionaWebhook
